import Mathlib

/-!
Formal model of the Haisa Focus web app core: the timer engine
(`src/components/timer/useTimer.ts`), the storage module
(validators, snapshot/session/daily-stats persistence), the audio
playlist navigation (`src/components/audio/useAudioEngine.ts`) and the
ad waterfall orchestrator (`AdOrchestrator`).

Modelling conventions:
* JavaScript numbers are modelled as `Int` (all arithmetic in the
  modelled code is addition, subtraction, comparison and `Math.max`,
  which are exact on integers).
* `performance.now()` / `Date.now()` values are passed explicitly as
  `now` / `wallNow` arguments.
* `localStorage` cells are modelled per key as `Option StoredJson`:
  `none` is an absent key, `StoredJson.unparsable` is a stored string
  that `JSON.parse` rejects (or an empty string), and
  `StoredJson.parses v` is a stored string that parses to the JSON
  value `v`.
* All functions are total, mirroring the fact that the modelled code
  never throws to its caller (storage reads catch and fall back).
-/

namespace Haisa

/-- Timer lifecycle states (`TimerState` in `@/types`). -/
inductive TimerState where
  | idle
  | running
  | paused
  | finished
deriving DecidableEq, Repr

/-- Timer modes (`TimerMode` in `@/types`). -/
inductive TimerMode where
  | stopwatch
  | pomodoro
deriving DecidableEq, Repr

/-- Pomodoro phases (`PomodoroPhase` in `@/types`). -/
inductive PomodoroPhase where
  | work
  | «break»
deriving DecidableEq, Repr

/-- `POMODORO_WORK_MS = 25 * 60 * 1000` from `useTimer.ts`. -/
def POMODORO_WORK_MS : Int := 25 * 60 * 1000

/-- `POMODORO_BREAK_MS = 5 * 60 * 1000` from `useTimer.ts`. -/
def POMODORO_BREAK_MS : Int := 5 * 60 * 1000

/-- The ternary `phase === 'work' ? POMODORO_WORK_MS : POMODORO_BREAK_MS`
used throughout `useTimer.ts`. -/
def phaseDuration (p : PomodoroPhase) : Int :=
  if p = PomodoroPhase.work then POMODORO_WORK_MS else POMODORO_BREAK_MS

/-- `TimerInternalState` from `useTimer.ts`. -/
structure TimerInternalState where
  state : TimerState
  mode : TimerMode
  startTimestamp : Option Int
  pausedElapsed : Int
  pomodoroPhase : PomodoroPhase
  pomodoroRemainingMs : Int
deriving DecidableEq, Repr

/-- `DEFAULT_STATE` from `useTimer.ts`. -/
def DEFAULT_STATE : TimerInternalState :=
  { state := TimerState.idle
    mode := TimerMode.stopwatch
    startTimestamp := none
    pausedElapsed := 0
    pomodoroPhase := PomodoroPhase.work
    pomodoroRemainingMs := POMODORO_WORK_MS }

/-- `SessionData` from `@/types`. -/
structure SessionData where
  id : String
  startTime : Int
  endTime : Int
  duration : Int
  mode : TimerMode
  completed : Bool
deriving DecidableEq, Repr

/-- The two phase-transition notification requests issued by `tick`
(`sendPomodoroWorkCompleteNotification` / `sendPomodoroBreakCompleteNotification`). -/
inductive NotificationKind where
  | workComplete
  | breakComplete
deriving DecidableEq, Repr

/-- `calculateElapsed` from `useTimer.ts`: timestamp-based elapsed time.
`now` is the current `performance.now()` value. -/
def calculateElapsed (s : TimerInternalState) (now : Int) : Int :=
  if s.state = TimerState.idle then 0
  else if s.state = TimerState.paused ∨ s.state = TimerState.finished then
    s.pausedElapsed
  else
    match s.state, s.startTimestamp with
    | TimerState.running, some start => s.pausedElapsed + (now - start)
    | _, _ => s.pausedElapsed

/-- `calculateRemaining` from `useTimer.ts`: remaining time for pomodoro mode. -/
def calculateRemaining (s : TimerInternalState) (now : Int) : Int :=
  if s.mode ≠ TimerMode.pomodoro then 0
  else if s.state = TimerState.idle then
    (if s.pomodoroPhase = PomodoroPhase.work then POMODORO_WORK_MS else POMODORO_BREAK_MS)
  else if s.state = TimerState.paused ∨ s.state = TimerState.finished then
    s.pomodoroRemainingMs
  else
    match s.state, s.startTimestamp with
    | TimerState.running, some start =>
        max 0 (s.pomodoroRemainingMs - (now - start))
    | _, _ => s.pomodoroRemainingMs

/-- `tick` from `useTimer.ts`, restricted to its effect on the internal
state and its emissions.  `now` is `performance.now()`, `wallNow` is
`Date.now()`, `newId` is the freshly generated session id, and
`sessionStartTime` is the current value of `sessionStartTimeRef`.
Returns the new internal state, the list of `SessionData` passed to
`saveSession`, and the list of notification requests issued. -/
def tick (s : TimerInternalState) (now wallNow : Int) (newId : String)
    (sessionStartTime : Option Int) :
    TimerInternalState × List SessionData × List NotificationKind :=
  if s.state = TimerState.running then
    if s.mode = TimerMode.pomodoro then
      let newElapsed := calculateElapsed s now
      let newRemaining := calculateRemaining s now
      if newRemaining ≤ 0 then
        let nextPhase :=
          if s.pomodoroPhase = PomodoroPhase.work then PomodoroPhase.«break»
          else PomodoroPhase.work
        let nextRemainingMs :=
          if nextPhase = PomodoroPhase.work then POMODORO_WORK_MS else POMODORO_BREAK_MS
        let sessions : List SessionData :=
          match sessionStartTime with
          | some t0 =>
              [{ id := newId
                 startTime := t0
                 endTime := wallNow
                 duration :=
                   if s.pomodoroPhase = PomodoroPhase.work then POMODORO_WORK_MS
                   else POMODORO_BREAK_MS
                 mode := TimerMode.pomodoro
                 completed := true }]
          | none => []
        let notes : List NotificationKind :=
          [if s.pomodoroPhase = PomodoroPhase.work then NotificationKind.workComplete
           else NotificationKind.breakComplete]
        ({ s with
             state := TimerState.finished
             pausedElapsed := newElapsed
             pomodoroPhase := nextPhase
             pomodoroRemainingMs := nextRemainingMs
             startTimestamp := none },
         sessions, notes)
      else (s, [], [])
    else (s, [], [])
  else (s, [], [])

/-- `start` from `useTimer.ts` (its effect on the internal state). -/
def startFn (s : TimerInternalState) (now : Int) : TimerInternalState :=
  if s.state ≠ TimerState.idle ∧ s.state ≠ TimerState.finished then s
  else
    { s with
        state := TimerState.running
        startTimestamp := some now
        pausedElapsed :=
          if s.state = TimerState.finished then s.pausedElapsed else 0
        pomodoroRemainingMs :=
          if s.state = TimerState.finished then phaseDuration s.pomodoroPhase
          else s.pomodoroRemainingMs }

/-- `pause` from `useTimer.ts`. -/
def pauseFn (s : TimerInternalState) (now : Int) : TimerInternalState :=
  if s.state ≠ TimerState.running then s
  else
    { s with
        state := TimerState.paused
        startTimestamp := none
        pausedElapsed := calculateElapsed s now
        pomodoroRemainingMs := calculateRemaining s now }

/-- `resume` from `useTimer.ts`. -/
def resumeFn (s : TimerInternalState) (now : Int) : TimerInternalState :=
  if s.state ≠ TimerState.paused then s
  else { s with state := TimerState.running, startTimestamp := some now }

/-- `stop` from `useTimer.ts`: new internal state plus the sessions
passed to `saveSession` (one iff `sessionStartTimeRef` is non-null and
the final elapsed time is positive). -/
def stopFn (s : TimerInternalState) (now wallNow : Int) (newId : String)
    (sessionStartTime : Option Int) : TimerInternalState × List SessionData :=
  if s.state = TimerState.idle then (s, [])
  else
    let finalElapsed := calculateElapsed s now
    let sessions : List SessionData :=
      match sessionStartTime with
      | some t0 =>
          if finalElapsed > 0 then
            [{ id := newId
               startTime := t0
               endTime := wallNow
               duration := finalElapsed
               mode := s.mode
               completed := false }]
          else []
      | none => []
    ({ DEFAULT_STATE with mode := s.mode }, sessions)

/-- `reset` from `useTimer.ts`. -/
def resetFn (s : TimerInternalState) : TimerInternalState :=
  { DEFAULT_STATE with
      mode := s.mode
      pomodoroRemainingMs :=
        if s.mode = TimerMode.pomodoro then POMODORO_WORK_MS else 0 }

/-- `setMode` from `useTimer.ts`. -/
def setModeFn (s : TimerInternalState) (newMode : TimerMode) : TimerInternalState :=
  if s.state ≠ TimerState.idle then s
  else
    { DEFAULT_STATE with
        mode := newMode
        pomodoroRemainingMs :=
          if newMode = TimerMode.pomodoro then POMODORO_WORK_MS else 0 }

/-- `TimerSnapshot` from `@/types` (field-wise identical to
`TimerInternalState`; `persistState` in `useTimer.ts` copies the fields
over one by one). -/
structure TimerSnapshot where
  state : TimerState
  mode : TimerMode
  startTimestamp : Option Int
  pausedElapsed : Int
  pomodoroPhase : PomodoroPhase
  pomodoroRemainingMs : Int
deriving DecidableEq, Repr

/-- `persistState` from `useTimer.ts` (the snapshot it builds). -/
def persistedSnapshot (s : TimerInternalState) : TimerSnapshot :=
  { state := s.state
    mode := s.mode
    startTimestamp := s.startTimestamp
    pausedElapsed := s.pausedElapsed
    pomodoroPhase := s.pomodoroPhase
    pomodoroRemainingMs := s.pomodoroRemainingMs }

/-- The `restoredState` object built field-by-field from a saved
snapshot in the mount-time restore effect of `useTimer.ts`. -/
def snapshotToState (snap : TimerSnapshot) : TimerInternalState :=
  { state := snap.state
    mode := snap.mode
    startTimestamp := snap.startTimestamp
    pausedElapsed := snap.pausedElapsed
    pomodoroPhase := snap.pomodoroPhase
    pomodoroRemainingMs := snap.pomodoroRemainingMs }

/-- The mount-time restore effect of `useTimer.ts`: if the saved
snapshot was `running` with a non-null `startTimestamp`, the timestamp
is rebased to the current clock; otherwise the snapshot is adopted
unchanged. -/
def restoreFn (snap : TimerSnapshot) (now : Int) : TimerInternalState :=
  let restoredState := snapshotToState snap
  if restoredState.state = TimerState.running ∧ restoredState.startTimestamp ≠ none then
    { restoredState with startTimestamp := some now }
  else restoredState

/-! ## JSON layer (`src/lib/storage.ts`)

`localStorage` holds strings; `safeJsonParse` turns a stored string
into a JSON value or a fallback.  JSON values are modelled by `JValue`
(numbers as `Int`, see the header). -/

/-- A parsed JSON value. -/
inductive JValue where
  | jnull
  | jbool (b : Bool)
  | jnum (n : Int)
  | jstr (s : String)
  | jarr (elems : List JValue)
  | jobj (fields : List (String × JValue))
deriving Repr

/-- A stored string, classified by what `JSON.parse` does to it:
`unparsable` strings (including the empty string, which `safeJsonParse`
short-circuits on) yield the fallback, others yield a `JValue`. -/
inductive StoredJson where
  | unparsable
  | parses (v : JValue)

/-- `safeJsonParse(localStorage.getItem(key), null)` over the modelled
cell: `none` models an absent key (`getItem` returns `null`). -/
def safeJsonParse (cell : Option StoredJson) : Option JValue :=
  match cell with
  | none => none
  | some StoredJson.unparsable => none
  | some (StoredJson.parses v) => some v

/-- JavaScript property lookup on a parsed JSON object; on any other
value the modelled field accesses yield `undefined` (`none`).  For
duplicate keys `JSON.parse` keeps the last binding, hence the
later-binding-wins recursion. -/
def lookupField : List (String × JValue) → String → Option JValue
  | [], _ => none
  | (k, v) :: rest, key =>
      match lookupField rest key with
      | some v' => some v'
      | none => if k = key then some v else none

/-- Property access `data[key]` as used by the validators. -/
def getField : JValue → String → Option JValue
  | JValue.jobj fields, key => lookupField fields key
  | _, _ => none

/-- JavaScript truthiness of a parsed JSON value (the `data && ...`
guards in `storage.ts`). -/
def truthy : JValue → Bool
  | JValue.jnull => false
  | JValue.jbool b => b
  | JValue.jnum n => n ≠ 0
  | JValue.jstr s => s ≠ ""
  | JValue.jarr _ => true
  | JValue.jobj _ => true

/-- `typeof data === 'object'` for a parsed JSON value (arrays and
`null` are `'object'` in JavaScript). -/
def jsTypeofObject : JValue → Bool
  | JValue.jnull => true
  | JValue.jarr _ => true
  | JValue.jobj _ => true
  | _ => false

/-- `isValidTimerSnapshot` from `storage.ts`. -/
def isValidTimerSnapshot (data : JValue) : Bool :=
  if ¬ truthy data ∨ ¬ jsTypeofObject data then false
  else
    (match getField data "state" with
     | some (JValue.jstr s) => ["idle", "running", "paused", "finished"].contains s
     | _ => false) &&
    (match getField data "mode" with
     | some (JValue.jstr s) => ["stopwatch", "pomodoro"].contains s
     | _ => false) &&
    (match getField data "startTimestamp" with
     | some JValue.jnull => true
     | some (JValue.jnum _) => true
     | _ => false) &&
    (match getField data "pausedElapsed" with
     | some (JValue.jnum _) => true
     | _ => false) &&
    (match getField data "pomodoroPhase" with
     | some (JValue.jstr s) => ["work", "break"].contains s
     | _ => false) &&
    (match getField data "pomodoroRemainingMs" with
     | some (JValue.jnum _) => true
     | _ => false)

/-- `isValidSessionData` from `storage.ts`. -/
def isValidSessionData (data : JValue) : Bool :=
  if ¬ truthy data ∨ ¬ jsTypeofObject data then false
  else
    (match getField data "id" with
     | some (JValue.jstr _) => true
     | _ => false) &&
    (match getField data "startTime" with
     | some (JValue.jnum _) => true
     | _ => false) &&
    (match getField data "endTime" with
     | some (JValue.jnum _) => true
     | _ => false) &&
    (match getField data "duration" with
     | some (JValue.jnum _) => true
     | _ => false) &&
    (match getField data "mode" with
     | some (JValue.jstr s) => ["stopwatch", "pomodoro"].contains s
     | _ => false) &&
    (match getField data "completed" with
     | some (JValue.jbool _) => true
     | _ => false)

/-- The string stored in the `state` field of a serialized snapshot. -/
def timerStateToStr : TimerState → String
  | TimerState.idle => "idle"
  | TimerState.running => "running"
  | TimerState.paused => "paused"
  | TimerState.finished => "finished"

/-- The string stored in the `mode` field. -/
def timerModeToStr : TimerMode → String
  | TimerMode.stopwatch => "stopwatch"
  | TimerMode.pomodoro => "pomodoro"

/-- The string stored in the `pomodoroPhase` field. -/
def phaseToStr : PomodoroPhase → String
  | PomodoroPhase.work => "work"
  | PomodoroPhase.«break» => "break"

/-- Inverse of `timerStateToStr` on the validator-accepted strings. -/
def strToTimerState : String → Option TimerState
  | "idle" => some TimerState.idle
  | "running" => some TimerState.running
  | "paused" => some TimerState.paused
  | "finished" => some TimerState.finished
  | _ => none

/-- Inverse of `timerModeToStr` on the validator-accepted strings. -/
def strToTimerMode : String → Option TimerMode
  | "stopwatch" => some TimerMode.stopwatch
  | "pomodoro" => some TimerMode.pomodoro
  | _ => none

/-- Inverse of `phaseToStr` on the validator-accepted strings. -/
def strToPhase : String → Option PomodoroPhase
  | "work" => some PomodoroPhase.work
  | "break" => some PomodoroPhase.«break»
  | _ => none

/-- `JSON.stringify` of a `TimerSnapshot`, as the JSON value the stored
string parses back to. -/
def encodeTimerSnapshot (snap : TimerSnapshot) : JValue :=
  JValue.jobj
    [("state", JValue.jstr (timerStateToStr snap.state)),
     ("mode", JValue.jstr (timerModeToStr snap.mode)),
     ("startTimestamp",
       match snap.startTimestamp with
       | some n => JValue.jnum n
       | none => JValue.jnull),
     ("pausedElapsed", JValue.jnum snap.pausedElapsed),
     ("pomodoroPhase", JValue.jstr (phaseToStr snap.pomodoroPhase)),
     ("pomodoroRemainingMs", JValue.jnum snap.pomodoroRemainingMs)]

/-- `JSON.stringify` of a `SessionData`. -/
def encodeSessionData (session : SessionData) : JValue :=
  JValue.jobj
    [("id", JValue.jstr session.id),
     ("startTime", JValue.jnum session.startTime),
     ("endTime", JValue.jnum session.endTime),
     ("duration", JValue.jnum session.duration),
     ("mode", JValue.jstr (timerModeToStr session.mode)),
     ("completed", JValue.jbool session.completed)]

/-- The Lean-side typing of the raw object that `getTimerSnapshot`
returns after `isValidTimerSnapshot` accepted it (the JavaScript code
returns the parsed object itself). -/
def decodeTimerSnapshot (data : JValue) : Option TimerSnapshot :=
  match getField data "state", getField data "mode",
        getField data "startTimestamp", getField data "pausedElapsed",
        getField data "pomodoroPhase", getField data "pomodoroRemainingMs" with
  | some (JValue.jstr st), some (JValue.jstr md), some ts,
    some (JValue.jnum pe), some (JValue.jstr ph), some (JValue.jnum prem) =>
      match strToTimerState st, strToTimerMode md, strToPhase ph, ts with
      | some st', some md', some ph', JValue.jnull =>
          some ⟨st', md', none, pe, ph', prem⟩
      | some st', some md', some ph', JValue.jnum n =>
          some ⟨st', md', some n, pe, ph', prem⟩
      | _, _, _, _ => none
  | _, _, _, _, _, _ => none

/-- The Lean-side typing of the raw object `getLastSession` returns. -/
def decodeSessionData (data : JValue) : Option SessionData :=
  match getField data "id", getField data "startTime",
        getField data "endTime", getField data "duration",
        getField data "mode", getField data "completed" with
  | some (JValue.jstr i), some (JValue.jnum st), some (JValue.jnum et),
    some (JValue.jnum d), some (JValue.jstr md), some (JValue.jbool c) =>
      match strToTimerMode md with
      | some md' => some ⟨i, st, et, d, md', c⟩
      | none => none
  | _, _, _, _, _, _ => none

/-- `saveTimerSnapshot` from `storage.ts`: the resulting content of the
`haisa_timer_snapshot` cell (storage available, write succeeds). -/
def saveTimerSnapshot (snap : TimerSnapshot) : Option StoredJson :=
  some (StoredJson.parses (encodeTimerSnapshot snap))

/-- `getTimerSnapshot` from `storage.ts` (its returned value; on the
invalid branch the code additionally clears the cell, which does not
affect the returned value). -/
def getTimerSnapshot (cell : Option StoredJson) : Option TimerSnapshot :=
  match safeJsonParse cell with
  | some data =>
      if truthy data && isValidTimerSnapshot data then decodeTimerSnapshot data
      else none
  | none => none

/-- `getLastSession` from `storage.ts`. -/
def getLastSession (cell : Option StoredJson) : Option SessionData :=
  match safeJsonParse cell with
  | some data =>
      if truthy data && isValidSessionData data then decodeSessionData data
      else none
  | none => none

/-! ## Daily stats (`saveSession` / `saveSessionForDate`)

The stats store is modelled at the decoded level: the
`Record<string, DailyStats>` that `getAllDailyStats` produces (the JSON
encode/decode of a well-formed record is the identity, exactly as for
the snapshot round-trip above). -/

/-- `DailyStats` from `@/types`. -/
structure DailyStats where
  date : String
  totalFocusMs : Int
  sessionCount : Int
  sessions : List SessionData
deriving DecidableEq, Repr

/-- The decoded daily-stats record: date string to stored stats. -/
def StatsMap : Type := String → Option DailyStats

/-- `allStats[date] || { date, totalFocusMs: 0, sessionCount: 0, sessions: [] }`
from `storage.ts`. -/
def statsOrDefault (allStats : StatsMap) (date : String) : DailyStats :=
  match allStats date with
  | some st => st
  | none => { date := date, totalFocusMs := 0, sessionCount := 0, sessions := [] }

/-- The three update statements of `saveSession` / `saveSessionForDate`. -/
def recordSession (st : DailyStats) (session : SessionData) : DailyStats :=
  { st with
      totalFocusMs := st.totalFocusMs + session.duration
      sessionCount := st.sessionCount + 1
      sessions := st.sessions ++ [session] }

/-- `saveSessionForDate` from `storage.ts`: the stats record written
back by `saveDailyStats`. -/
def saveSessionForDate (session : SessionData) (date : String)
    (allStats : StatsMap) : StatsMap :=
  fun d =>
    if d = date then some (recordSession (statsOrDefault allStats date) session)
    else allStats d

/-- `getStatsForDate` from `storage.ts`. -/
def getStatsForDate (date : String) (allStats : StatsMap) : DailyStats :=
  statsOrDefault allStats date

/-- `saveSession` from `storage.ts`: updates today's stats bucket and
overwrites the `haisa_last_session` cell with the serialized session.
`today` is `getTodayDateString()`. -/
def saveSession (session : SessionData) (today : String)
    (allStats : StatsMap) : StatsMap × Option StoredJson :=
  (saveSessionForDate session today allStats,
   some (StoredJson.parses (encodeSessionData session)))

/-! ## Audio playlist navigation (`useAudioEngine.ts`) -/

/-- `Track` from `@/types`. -/
structure Track where
  id : String
  title : String
  artist : String
  src : String
  duration : Int
deriving DecidableEq, Repr

/-- `next` from `useAudioEngine.ts`:
`(trackIndex + 1) % playlist.length`. -/
def nextIndex (trackIndex : Nat) (playlist : List Track) : Nat :=
  (trackIndex + 1) % playlist.length

/-- `previous` from `useAudioEngine.ts`:
`trackIndex === 0 ? playlist.length - 1 : trackIndex - 1`. -/
def previousIndex (trackIndex : Nat) (playlist : List Track) : Nat :=
  if trackIndex = 0 then playlist.length - 1 else trackIndex - 1

/-! ## Ad waterfall orchestrator (`AdOrchestrator.ts`) -/

/-- `AdProvider` from `@/types`. -/
inductive AdProvider where
  | adsense
  | adsterra
  | monetag
deriving DecidableEq, Repr

/-- `AdSlotId` from `@/types`. -/
inductive AdSlotId where
  | AD_TOP_LEADERBOARD
  | AD_SIDE_RAIL_1
  | AD_SIDE_RAIL_2
  | AD_INCONTENT_1
  | AD_BOTTOM
deriving DecidableEq, Repr

/-- Device classes used by `enabledDevices` and `isMobile()`. -/
inductive Device where
  | desktop
  | mobile
deriving DecidableEq, Repr

/-- Page kinds used by `enabledPages`. -/
inductive PageKind where
  | app
  | blog
  | landing
deriving DecidableEq, Repr

/-- `AdSlotConfig` from `@/types`. -/
structure AdSlotConfig where
  id : AdSlotId
  sizesDesktop : List (Nat × Nat)
  sizesMobile : List (Nat × Nat)
  providers : List AdProvider
  enabledDevices : List Device
  enabledPages : List PageKind
  lazy : Bool
  sticky : Bool
deriving DecidableEq, Repr

/-- `AdConfig` from `ads/types.ts`.  Of each per-provider entry the
orchestrator only ever reads `enabled` (`providerConfig?.enabled`), so
the provider table is modelled by that flag. -/
structure AdConfig where
  enabled : Bool
  slots : List AdSlotConfig
  providerEnabled : AdProvider → Bool
  mobileSlotLimit : Nat

/-- `AdSlotState` from `ads/types.ts`. -/
structure AdSlotState where
  loaded : Bool
  filled : Bool
  currentProvider : Option AdProvider
  error : Option String
deriving DecidableEq, Repr

/-- Outcome of one `adapter.load()` call as observed by `triggerLoad`:
resolved `true`, resolved `false`, or threw/timed out (the `catch`
branch and the 5s timeout race are both "continue to next provider"). -/
inductive LoadOutcome where
  | fills
  | noFill
  | fault
deriving DecidableEq, Repr

/-- An external provider adapter (`AdProviderAdapter`), modelled by its
availability and the outcome of `load` per slot. -/
structure AdapterModel where
  available : Bool
  load : AdSlotId → LoadOutcome

/-- The mutable fields of `AdOrchestrator` (observers and load
callbacks carry no state the claims mention and are omitted), plus the
viewport class that `isMobile()` reads. -/
structure OrchState where
  config : AdConfig
  slotStates : AdSlotId → Option AdSlotState
  adapters : AdProvider → Option AdapterModel
  adsenseActive : Bool
  loadedSlots : List AdSlotId
  mobileSlotCount : Nat
  mobile : Bool

/-- `getSlotConfig` from `AdOrchestrator.ts`. -/
def getSlotConfig (σ : OrchState) (slotId : AdSlotId) : Option AdSlotConfig :=
  σ.config.slots.find? (fun s => s.id = slotId)

/-- `isSlotEnabledForDevice` from `AdOrchestrator.ts`. -/
def isSlotEnabledForDevice (σ : OrchState) (slotId : AdSlotId) : Bool :=
  match getSlotConfig σ slotId with
  | none => false
  | some slot =>
      slot.enabledDevices.contains (if σ.mobile then Device.mobile else Device.desktop)

/-- `canLoadMobileSlot` from `AdOrchestrator.ts`. -/
def canLoadMobileSlot (σ : OrchState) : Bool :=
  if ¬ σ.mobile then true
  else σ.mobileSlotCount < σ.config.mobileSlotLimit

/-- `getAvailableProviders` from `AdOrchestrator.ts` (filters to
configured-enabled providers). -/
def getAvailableProviders (σ : OrchState) (providers : List AdProvider) :
    List AdProvider :=
  providers.filter (fun p => σ.config.providerEnabled p)

/-- Result of the provider loop of `triggerLoad`: the providers whose
`load()` was invoked (in order), the winning provider if any, and the
resulting AdSense-active flag. -/
structure WaterfallResult where
  attempts : List AdProvider
  winner : Option AdProvider
  adsenseActive : Bool
deriving DecidableEq, Repr

/-- The `for (const provider of providers)` loop of `triggerLoad`:
skip providers with no registered adapter or an unavailable one, skip
non-AdSense providers while the AdSense-active flag is set, stop at the
first provider whose `load()` resolves `true`. -/
def waterfall (adapters : AdProvider → Option AdapterModel) (slotId : AdSlotId)
    (active : Bool) : List AdProvider → WaterfallResult
  | [] => ⟨[], none, active⟩
  | p :: rest =>
      match adapters p with
      | none => waterfall adapters slotId active rest
      | some a =>
          if ¬ a.available then waterfall adapters slotId active rest
          else if active ∧ (p = AdProvider.adsterra ∨ p = AdProvider.monetag) then
            waterfall adapters slotId active rest
          else
            match a.load slotId with
            | LoadOutcome.fills =>
                ⟨[p], some p, if p = AdProvider.adsense then true else active⟩
            | _ =>
                let r := waterfall adapters slotId active rest
                ⟨p :: r.attempts, r.winner, r.adsenseActive⟩

/-- Pointwise update of the slot-state map (`this.slotStates.set`). -/
def setSlotState (m : AdSlotId → Option AdSlotState) (slotId : AdSlotId)
    (st : AdSlotState) : AdSlotId → Option AdSlotState :=
  fun i => if i = slotId then some st else m i

/-- `triggerLoad` from `AdOrchestrator.ts`: the new orchestrator state
and the list of providers whose `load()` was invoked. -/
def triggerLoad (σ : OrchState) (slotId : AdSlotId) : OrchState × List AdProvider :=
  if σ.loadedSlots.contains slotId then (σ, [])
  else if ¬ isSlotEnabledForDevice σ slotId then (σ, [])
  else if ¬ canLoadMobileSlot σ then (σ, [])
  else
    match getSlotConfig σ slotId with
    | none => (σ, [])
    | some slot =>
        let σ1 : OrchState :=
          { σ with
              loadedSlots := slotId :: σ.loadedSlots
              mobileSlotCount :=
                if σ.mobile then σ.mobileSlotCount + 1 else σ.mobileSlotCount
              slotStates :=
                setSlotState σ.slotStates slotId
                  { loaded := false, filled := false
                    currentProvider := none, error := none } }
        let providers := getAvailableProviders σ slot.providers
        let r := waterfall σ.adapters slotId σ.adsenseActive providers
        match r.winner with
        | some p =>
            ({ σ1 with
                 adsenseActive := r.adsenseActive
                 slotStates :=
                   setSlotState σ1.slotStates slotId
                     { loaded := true, filled := true
                       currentProvider := some p, error := none } },
             r.attempts)
        | none =>
            ({ σ1 with
                 slotStates :=
                   setSlotState σ1.slotStates slotId
                     { loaded := true, filled := false
                       currentProvider := none
                       error := some "All providers failed to fill" } },
             r.attempts)

/-- `getSlotState` from `AdOrchestrator.ts`. -/
def getSlotState (σ : OrchState) (slotId : AdSlotId) : Option AdSlotState :=
  σ.slotStates slotId

/-- The public operations that can hit the orchestrator after
construction.  `registerSlot` either calls `triggerLoad` at once
(non-lazy slot) or schedules the same `triggerLoad` on first
visibility, so a visibility event is itself an `opTrigger`. -/
inductive AdOp where
  | opTrigger (slotId : AdSlotId)
  | opUnregister (slotId : AdSlotId)
  | opDestroy
  | opRegisterAdapter (p : AdProvider) (a : AdapterModel)

/-- One orchestrator operation; returns the new state and the log of
`load()` invocations `(slot, provider)` it performed.  `unregisterSlot`
only disconnects the slot's visibility observer; `destroy` disconnects
observers and clears the callback set and `loadedSlots` — neither
resets `adsenseActive` or `mobileSlotCount`. -/
def applyAdOp (σ : OrchState) : AdOp → OrchState × List (AdSlotId × AdProvider)
  | AdOp.opTrigger slotId =>
      let r := triggerLoad σ slotId
      (r.1, r.2.map (fun p => (slotId, p)))
  | AdOp.opUnregister _ => (σ, [])
  | AdOp.opDestroy => ({ σ with loadedSlots := [] }, [])
  | AdOp.opRegisterAdapter p a =>
      ({ σ with adapters := fun q => if q = p then some a else σ.adapters q }, [])

/-- Run a sequence of orchestrator operations, concatenating the
`load()` invocation logs. -/
def runAdOps (σ : OrchState) : List AdOp → OrchState × List (AdSlotId × AdProvider)
  | [] => (σ, [])
  | op :: rest =>
      let r := applyAdOp σ op
      let rr := runAdOps r.1 rest
      (rr.1, r.2 ++ rr.2)

/-! ## Timer operation sequences (for the `startTimestamp` invariant) -/

/-- The spec's timer-state invariant:
`startTimestamp` is non-null iff `state == running`. -/
def timerInvariant (s : TimerInternalState) : Prop :=
  s.startTimestamp ≠ none ↔ s.state = TimerState.running

instance (s : TimerInternalState) : Decidable (timerInvariant s) := by
  unfold timerInvariant; infer_instance

/-- The same invariant read off a persisted snapshot. -/
def snapInvariant (snap : TimerSnapshot) : Prop :=
  snap.startTimestamp ≠ none ↔ snap.state = TimerState.running

instance (snap : TimerSnapshot) : Decidable (snapInvariant snap) := by
  unfold snapInvariant; infer_instance

/-- One user-visible timer operation, with the clock values and
bookkeeping inputs it consumes.  `opRestore` is the mount-time
restoration of a saved snapshot. -/
inductive TimerOp where
  | opStart (now : Int)
  | opPause (now : Int)
  | opResume (now : Int)
  | opStop (now wallNow : Int) (newId : String) (sessionStartTime : Option Int)
  | opReset
  | opSetMode (m : TimerMode)
  | opTick (now wallNow : Int) (newId : String) (sessionStartTime : Option Int)
  | opRestore (snap : TimerSnapshot) (now : Int)

/-- Effect of one operation on the internal state (emissions of `stop`
and `tick` do not feed back into the state). -/
def applyTimerOp (s : TimerInternalState) : TimerOp → TimerInternalState
  | TimerOp.opStart now => startFn s now
  | TimerOp.opPause now => pauseFn s now
  | TimerOp.opResume now => resumeFn s now
  | TimerOp.opStop now wallNow newId sess => (stopFn s now wallNow newId sess).1
  | TimerOp.opReset => resetFn s
  | TimerOp.opSetMode m => setModeFn s m
  | TimerOp.opTick now wallNow newId sess => (tick s now wallNow newId sess).1
  | TimerOp.opRestore snap now => restoreFn snap now

/-- Run a sequence of timer operations from a state. -/
def runTimerOps (s : TimerInternalState) : List TimerOp → TimerInternalState
  | [] => s
  | op :: rest => runTimerOps (applyTimerOp s op) rest

/-- `true` unless the operation restores a snapshot that itself
violates the `startTimestamp`/`running` invariant. -/
def restoresInvariantSnap : TimerOp → Bool
  | TimerOp.opRestore snap _ => decide (snapInvariant snap)
  | _ => true

/-! ## Derived notions used by the theorems -/

/-- The `nextPhase` computation of `tick`: `work ↔ break`. -/
def flipPhase (p : PomodoroPhase) : PomodoroPhase :=
  if p = PomodoroPhase.work then PomodoroPhase.«break» else PomodoroPhase.work

/-- The notification request `tick` issues for the just-finished phase. -/
def phaseCompletionNote (p : PomodoroPhase) : NotificationKind :=
  if p = PomodoroPhase.work then NotificationKind.workComplete
  else NotificationKind.breakComplete

/-! ## Theorems -/

/-- C1: for a running pomodoro timer that was started via `start()`
(so `sessionStartTimeRef` holds some wall-clock value `t0`), whenever
the computed remaining time reaches `≤ 0` on a tick, the engine moves
to `finished` with the phase flipped, `pomodoroRemainingMs` reset to
the new phase's full duration, `startTimestamp` nulled, exactly one
completed pomodoro `SessionData` of the just-finished phase's full
duration recorded, and exactly one phase-transition notification
issued. -/
theorem tick_phase_complete (s : TimerInternalState) (now wallNow t0 : Int)
    (newId : String)
    (hrun : s.state = TimerState.running) (hmode : s.mode = TimerMode.pomodoro)
    (hrem : calculateRemaining s now ≤ 0) :
    tick s now wallNow newId (some t0) =
      ({ s with
           state := TimerState.finished
           pausedElapsed := calculateElapsed s now
           pomodoroPhase := flipPhase s.pomodoroPhase
           pomodoroRemainingMs := phaseDuration (flipPhase s.pomodoroPhase)
           startTimestamp := none },
       [{ id := newId
          startTime := t0
          endTime := wallNow
          duration := phaseDuration s.pomodoroPhase
          mode := TimerMode.pomodoro
          completed := true }],
       [phaseCompletionNote s.pomodoroPhase]) := by
  obtain ⟨st, md, ts, pe, ph, prem⟩ := s
  dsimp only at hrun hmode hrem ⊢
  subst hrun; subst hmode
  cases ph <;>
    simp [tick, hrem, flipPhase, phaseDuration, phaseCompletionNote,
      POMODORO_WORK_MS, POMODORO_BREAK_MS]

/-- C1 witness: a work phase finishing exactly at its 25-minute mark. -/
theorem tick_phase_complete_witness :
    tick { state := TimerState.running, mode := TimerMode.pomodoro,
           startTimestamp := some 0, pausedElapsed := 0,
           pomodoroPhase := PomodoroPhase.work,
           pomodoroRemainingMs := 1500000 } 1500000 99 "sid" (some 0) =
      ({ state := TimerState.finished, mode := TimerMode.pomodoro,
         startTimestamp := none, pausedElapsed := 1500000,
         pomodoroPhase := PomodoroPhase.«break»,
         pomodoroRemainingMs := 300000 },
       [{ id := "sid", startTime := 0, endTime := 99, duration := 1500000,
          mode := TimerMode.pomodoro, completed := true }],
       [NotificationKind.workComplete]) := by
  have h := tick_phase_complete
    { state := TimerState.running, mode := TimerMode.pomodoro,
      startTimestamp := some 0, pausedElapsed := 0,
      pomodoroPhase := PomodoroPhase.work, pomodoroRemainingMs := 1500000 }
    1500000 99 0 "sid" rfl rfl (by decide)
  simpa using h

/-- A state the claim quantifies over: running, clock skewed so that the
current `performance.now()` value lies before `startTimestamp`. -/
def skewedState : TimerInternalState :=
  { state := TimerState.running
    mode := TimerMode.stopwatch
    startTimestamp := some 100
    pausedElapsed := 0
    pomodoroPhase := PomodoroPhase.work
    pomodoroRemainingMs := 0 }

/-- C2 counterexample: `calculateElapsed` is not clamped at zero — for a
running state with `startTimestamp = 100` and current clock `0` it
returns `-100`, a negative value. -/
theorem calculateElapsed_negative_cex :
    calculateElapsed skewedState 0 = -100 ∧ calculateElapsed skewedState 0 < 0 := by
  decide

/-- C2 (amended): for states with non-negative `pausedElapsed` and
`pomodoroRemainingMs`, `calculateRemaining` never returns a negative
value at any clock (the running case is clamped via `Math.max(0, ·)`
even for a clock earlier than `startTimestamp`), and `calculateElapsed`
is non-negative provided the clock is not earlier than
`startTimestamp` — but `calculateElapsed` itself is not clamped (see
the counterexample). -/
theorem calc_clamped_nonneg (s : TimerInternalState) (now : Int)
    (hpe : 0 ≤ s.pausedElapsed) (hrem : 0 ≤ s.pomodoroRemainingMs) :
    0 ≤ calculateRemaining s now ∧
    ((∀ t, s.startTimestamp = some t → t ≤ now) → 0 ≤ calculateElapsed s now) := by
  obtain ⟨st, md, ts, pe, ph, prem⟩ := s
  dsimp only at hpe hrem ⊢
  constructor
  · cases st <;> cases md <;> cases ts <;> cases ph <;>
      simp [calculateRemaining, POMODORO_WORK_MS, POMODORO_BREAK_MS,
        le_max_iff] <;> omega
  · intro hclock
    cases st <;> cases ts <;> simp [calculateElapsed] <;>
      first
        | omega
        | (have hb := hclock _ rfl; omega)

/-- C2 witness: the amended bound evaluated at a concrete paused state. -/
theorem calc_clamped_nonneg_witness :
    0 ≤ calculateRemaining
        { state := TimerState.paused, mode := TimerMode.pomodoro,
          startTimestamp := none, pausedElapsed := 4,
          pomodoroPhase := PomodoroPhase.work, pomodoroRemainingMs := 7 } 11 ∧
    0 ≤ calculateElapsed
        { state := TimerState.paused, mode := TimerMode.pomodoro,
          startTimestamp := none, pausedElapsed := 4,
          pomodoroPhase := PomodoroPhase.work, pomodoroRemainingMs := 7 } 11 := by
  have h := calc_clamped_nonneg
    { state := TimerState.paused, mode := TimerMode.pomodoro,
      startTimestamp := none, pausedElapsed := 4,
      pomodoroPhase := PomodoroPhase.work, pomodoroRemainingMs := 7 } 11
    (by decide) (by decide)
  exact ⟨h.1, h.2 (fun t ht => by simp at ht)⟩

/-- C9: playlist navigation wraps around: `next` at the last index goes
to `0`, `previous` at index `0` goes to the last index, otherwise the
index moves by one. -/
theorem playlist_wraparound (playlist : List Track) (i : Nat)
    (h : i < playlist.length) :
    (nextIndex i playlist = if i = playlist.length - 1 then 0 else i + 1) ∧
    (previousIndex i playlist = if i = 0 then playlist.length - 1 else i - 1) := by
  refine ⟨?_, rfl⟩
  unfold nextIndex
  by_cases hi : i = playlist.length - 1
  · have hpos : 0 < playlist.length := lt_of_le_of_lt (Nat.zero_le _) h
    subst hi
    simp [Nat.sub_add_cancel hpos, Nat.mod_self]
  · have hlt : i + 1 < playlist.length := by omega
    simp [Nat.mod_eq_of_lt hlt, hi]

/-- A sample three-track playlist for the wraparound witness. -/
def samplePlaylist : List Track :=
  [{ id := "t1", title := "a", artist := "x", src := "u1", duration := 60 },
   { id := "t2", title := "b", artist := "x", src := "u2", duration := 60 },
   { id := "t3", title := "c", artist := "x", src := "u3", duration := 60 }]

/-- C9 witness: wraparound at both ends of a three-track playlist. -/
theorem playlist_wraparound_witness :
    nextIndex 2 samplePlaylist = 0 ∧ previousIndex 0 samplePlaylist = 2 := by
  have h1 := (playlist_wraparound samplePlaylist 2 (by decide)).1
  have h2 := (playlist_wraparound samplePlaylist 0 (by decide)).2
  simp [samplePlaylist] at h1 h2
  exact ⟨h1, h2⟩

/-- C4: the persistence round-trip — saving any well-typed
`TimerSnapshot` and loading it back yields a field-wise equal
snapshot. -/
theorem timerSnapshot_roundtrip (snap : TimerSnapshot) :
    getTimerSnapshot (saveTimerSnapshot snap) = some snap := by
  obtain ⟨st, md, ts, pe, ph, prem⟩ := snap
  cases st <;> cases md <;> cases ph <;> cases ts <;> rfl

/-- The stored timer-snapshot cell holds a string that parses to a
truthy JSON value accepted by `isValidTimerSnapshot`. -/
def storedTimerSnapshotValid (cell : Option StoredJson) : Bool :=
  match safeJsonParse cell with
  | some v => truthy v && isValidTimerSnapshot v
  | none => false

/-- The stored last-session cell holds a string that parses to a truthy
JSON value accepted by `isValidSessionData`. -/
def storedSessionValid (cell : Option StoredJson) : Bool :=
  match safeJsonParse cell with
  | some v => truthy v && isValidSessionData v
  | none => false

/-- C5: corrupted-state safety — for every stored string under the
snapshot or last-session key that is not a valid snapshot/session
(malformed JSON, wrong-typed fields, missing fields, invalid enum
values), `getTimerSnapshot` and `getLastSession` return `null`; both
functions are total, so no stored string makes them throw. -/
theorem corrupted_storage_safe (tcell scell : Option StoredJson)
    (ht : storedTimerSnapshotValid tcell = false)
    (hs : storedSessionValid scell = false) :
    getTimerSnapshot tcell = none ∧ getLastSession scell = none := by
  constructor
  · unfold storedTimerSnapshotValid at ht
    unfold getTimerSnapshot
    cases h : safeJsonParse tcell with
    | none => rfl
    | some v =>
        rw [h] at ht
        have ht' : (truthy v && isValidTimerSnapshot v) = false := ht
        simp [ht']
  · unfold storedSessionValid at hs
    unfold getLastSession
    cases h : safeJsonParse scell with
    | none => rfl
    | some v =>
        rw [h] at hs
        have hs' : (truthy v && isValidSessionData v) = false := hs
        simp [hs']

/-- C5 witness: an unparsable snapshot string and a wrong-typed
last-session value both load as `null`. -/
theorem corrupted_storage_safe_witness :
    getTimerSnapshot (some StoredJson.unparsable) = none ∧
    getLastSession (some (StoredJson.parses
      (JValue.jobj [("id", JValue.jnum 3)]))) = none :=
  corrupted_storage_safe _ _ (by decide) (by decide)

/-- C6: daily-stats additivity — recording a session of duration `D`
for a date increases that date's `totalFocusMs` by exactly `D` and its
`sessionCount` by exactly 1 (appending the session), leaves every
other date's entry unchanged, and `saveSession`'s stats update is
exactly `saveSessionForDate` at today's date. -/
theorem dailyStats_additivity (session : SessionData) (date : String)
    (allStats : StatsMap) :
    (getStatsForDate date (saveSessionForDate session date allStats)).totalFocusMs
        = (getStatsForDate date allStats).totalFocusMs + session.duration
    ∧ (getStatsForDate date (saveSessionForDate session date allStats)).sessionCount
        = (getStatsForDate date allStats).sessionCount + 1
    ∧ (∀ d, d ≠ date → saveSessionForDate session date allStats d = allStats d)
    ∧ (saveSession session date allStats).1 = saveSessionForDate session date allStats := by
  refine ⟨?_, ?_, ?_, rfl⟩
  · simp [getStatsForDate, statsOrDefault, saveSessionForDate, recordSession]
  · simp [getStatsForDate, statsOrDefault, saveSessionForDate, recordSession]
  · intro d hd
    simp [saveSessionForDate, hd]

/-- A sample recorded session for the daily-stats witness. -/
def sampleSession : SessionData :=
  { id := "s1", startTime := 0, endTime := 5, duration := 5,
    mode := TimerMode.stopwatch, completed := false }

/-- An initially empty stats record for the daily-stats witness. -/
def emptyStats : StatsMap := fun _ => none

/-- C6 witness: recording a 5 ms session on 2026-10-12 adds 5 ms to
that date and leaves 2026-10-11 untouched. -/
theorem dailyStats_additivity_witness :
    (getStatsForDate "2026-10-12"
        (saveSessionForDate sampleSession "2026-10-12" emptyStats)).totalFocusMs
      = (getStatsForDate "2026-10-12" emptyStats).totalFocusMs
          + sampleSession.duration
    ∧ saveSessionForDate sampleSession "2026-10-12" emptyStats "2026-10-11"
      = emptyStats "2026-10-11" :=
  ⟨(dailyStats_additivity sampleSession "2026-10-12" emptyStats).1,
   (dailyStats_additivity sampleSession "2026-10-12" emptyStats).2.2.1
     "2026-10-11" (by decide)⟩

/-- C10: `saveSession` also overwrites the last-session cell, so
`getLastSession` immediately after `saveSession(s)` returns a session
field-wise equal to `s`. -/
theorem saveSession_lastSession_roundtrip (session : SessionData)
    (today : String) (allStats : StatsMap) :
    getLastSession (saveSession session today allStats).2 = some session := by
  obtain ⟨i, st, et, d, md, c⟩ := session
  cases md <;> rfl

/-- Every single timer operation preserves the `startTimestamp`
invariant, provided a restored snapshot satisfies it itself. -/
theorem applyTimerOp_preserves_invariant (s : TimerInternalState) (op : TimerOp)
    (hs : timerInvariant s) (hop : restoresInvariantSnap op = true) :
    timerInvariant (applyTimerOp s op) := by
  cases op with
  | opStart now =>
      simp only [applyTimerOp]
      unfold startFn
      split
      · exact hs
      · simp [timerInvariant]
  | opPause now =>
      simp only [applyTimerOp]
      unfold pauseFn
      split
      · exact hs
      · simp [timerInvariant]
  | opResume now =>
      simp only [applyTimerOp]
      unfold resumeFn
      split
      · exact hs
      · simp [timerInvariant]
  | opStop now wallNow newId sess =>
      simp only [applyTimerOp]
      unfold stopFn
      split
      · exact hs
      · simp [timerInvariant, DEFAULT_STATE]
  | opReset =>
      simp only [applyTimerOp]
      unfold resetFn
      simp [timerInvariant, DEFAULT_STATE]
  | opSetMode m =>
      simp only [applyTimerOp]
      unfold setModeFn
      split
      · exact hs
      · simp [timerInvariant, DEFAULT_STATE]
  | opTick now wallNow newId sess =>
      simp only [applyTimerOp]
      unfold tick
      by_cases h1 : s.state = TimerState.running
      · by_cases h2 : s.mode = TimerMode.pomodoro
        · by_cases h3 : calculateRemaining s now ≤ 0
          · simp [h1, h2, h3, timerInvariant]
          · simp [h1, h2, h3]; exact hs
        · simp [h1, h2]; exact hs
      · simp [h1]; exact hs
  | opRestore snap now =>
      have hsnap : snapInvariant snap := of_decide_eq_true hop
      simp only [applyTimerOp]
      unfold restoreFn
      by_cases hcond : (snapshotToState snap).state = TimerState.running ∧
          (snapshotToState snap).startTimestamp ≠ none
      · simp [hcond, timerInvariant, hcond.1]
      · simp [hcond]; exact hsnap

/-- Sequences of invariant-respecting operations preserve the
invariant. -/
theorem runTimerOps_invariant (ops : List TimerOp) :
    ∀ s : TimerInternalState, timerInvariant s →
      ops.all restoresInvariantSnap = true →
      timerInvariant (runTimerOps s ops) := by
  induction ops with
  | nil => intro s hs _; exact hs
  | cons op rest ih =>
      intro s hs hall
      rw [List.all_cons, Bool.and_eq_true] at hall
      exact ih _ (applyTimerOp_preserves_invariant s op hs hall.1) hall.2

/-- C3 (amended): the invariant `startTimestamp` non-null iff
`state == running` holds for every timer state reachable from the
default state by any sequence of `start`, `pause`, `resume`, `stop`,
`reset`, `setMode`, the autonomous phase-complete tick, and mount-time
restoration of snapshots that themselves satisfy the invariant.  (The
snapshot validator also accepts snapshots that violate the invariant,
and restoring such a snapshot yields a violating state — see the
counterexample.) -/
theorem timer_invariant_reachable (ops : List TimerOp)
    (hall : ops.all restoresInvariantSnap = true) :
    timerInvariant (runTimerOps DEFAULT_STATE ops) :=
  runTimerOps_invariant ops DEFAULT_STATE (by decide) hall

/-- C3 witness: a concrete operation sequence, including a restoration
of an invariant-satisfying paused snapshot, ends in an
invariant-satisfying state. -/
theorem timer_invariant_reachable_witness :
    timerInvariant (runTimerOps DEFAULT_STATE
      [TimerOp.opSetMode TimerMode.pomodoro,
       TimerOp.opStart 0,
       TimerOp.opPause 7,
       TimerOp.opResume 9,
       TimerOp.opRestore
         { state := TimerState.paused, mode := TimerMode.pomodoro,
           startTimestamp := none, pausedElapsed := 3,
           pomodoroPhase := PomodoroPhase.work,
           pomodoroRemainingMs := 100 } 12,
       TimerOp.opStart 15]) :=
  timer_invariant_reachable _ (by decide)

/-- A snapshot that violates the invariant (idle with a numeric
`startTimestamp`) yet passes every check of `isValidTimerSnapshot`. -/
def invalidRestorableSnap : TimerSnapshot :=
  { state := TimerState.idle
    mode := TimerMode.stopwatch
    startTimestamp := some 5
    pausedElapsed := 0
    pomodoroPhase := PomodoroPhase.work
    pomodoroRemainingMs := 0 }

/-- C3 counterexample: the snapshot validator accepts a serialized
snapshot with `state = idle` and a numeric `startTimestamp`; it loads
back unchanged, and mount-time restoration of it yields a state that
violates the invariant. -/
theorem restore_validator_invariant_cex :
    isValidTimerSnapshot (encodeTimerSnapshot invalidRestorableSnap) = true ∧
    getTimerSnapshot (saveTimerSnapshot invalidRestorableSnap)
      = some invalidRestorableSnap ∧
    ¬ timerInvariant (restoreFn invalidRestorableSnap 0) := by
  decide

/-! ## Waterfall lemmas -/

/-- A provider with a registered adapter reporting `isAvailable()`. -/
def isCandidate (adapters : AdProvider → Option AdapterModel)
    (p : AdProvider) : Bool :=
  match adapters p with
  | some a => a.available
  | none => false

/-- The provider's `load()` resolves `true` for this slot. -/
def loadFills (adapters : AdProvider → Option AdapterModel) (slotId : AdSlotId)
    (p : AdProvider) : Bool :=
  match adapters p with
  | some a => decide (a.load slotId = LoadOutcome.fills)
  | none => false

/-- The claim's candidate list: the slot's providers in configured
order, filtered to configured-enabled ones with a registered,
available adapter. -/
def realCandidates (σ : OrchState) (slot : AdSlotConfig) : List AdProvider :=
  (getAvailableProviders σ slot.providers).filter (isCandidate σ.adapters)

/-- The provider loop ignores non-candidates entirely. -/
theorem waterfall_skip (adapters : AdProvider → Option AdapterModel)
    (slotId : AdSlotId) (active : Bool) (p : AdProvider) (rest : List AdProvider)
    (hp : isCandidate adapters p = false) :
    waterfall adapters slotId active (p :: rest) =
      waterfall adapters slotId active rest := by
  conv_lhs => unfold waterfall
  cases hA : adapters p with
  | none => simp [hA]
  | some a =>
      have hav : a.available = false := by
        unfold isCandidate at hp; rw [hA] at hp; exact hp
      simp [hA, hav]

/-- With the AdSense flag unset and no candidate filling, the loop
attempts exactly the candidates in order and reports no winner. -/
theorem waterfall_exhausts (adapters : AdProvider → Option AdapterModel)
    (slotId : AdSlotId) :
    ∀ l : List AdProvider,
      (∀ p ∈ l, isCandidate adapters p = true →
          loadFills adapters slotId p = false) →
      waterfall adapters slotId false l =
        ⟨l.filter (isCandidate adapters), none, false⟩ := by
  intro l
  induction l with
  | nil => intro _; rfl
  | cons p rest ih =>
      intro h
      by_cases hc : isCandidate adapters p = true
      · have hA : ∃ a, adapters p = some a ∧ a.available = true := by
          unfold isCandidate at hc
          cases hA : adapters p with
          | none => rw [hA] at hc; exact absurd hc (by simp)
          | some a => rw [hA] at hc; exact ⟨a, rfl, hc⟩
        obtain ⟨a, hA, hav⟩ := hA
        have hf : loadFills adapters slotId p = false :=
          h p (List.mem_cons_self p rest) hc
        have hL : a.load slotId ≠ LoadOutcome.fills := by
          unfold loadFills at hf; rw [hA] at hf; simpa using hf
        have hrest := ih (fun q hq hcq => h q (List.mem_cons_of_mem p hq) hcq)
        unfold waterfall
        rw [hA]
        simp only [hav, List.filter_cons, hc]
        cases hLoad : a.load slotId with
        | fills => exact absurd hLoad hL
        | noFill => simp [hrest]
        | fault => simp [hrest]
      · rw [waterfall_skip adapters slotId false p rest (by simpa using hc)]
        rw [List.filter_cons_of_neg (by simpa using hc)]
        exact ih (fun q hq hcq => h q (List.mem_cons_of_mem p hq) hcq)

/-- With the AdSense flag unset, if the candidates split as
`pre ++ p :: post` where no provider in `pre` fills and `p` fills, the
loop attempts exactly `pre ++ [p]` and `p` wins. -/
theorem waterfall_first_fill (adapters : AdProvider → Option AdapterModel)
    (slotId : AdSlotId) :
    ∀ (l pre : List AdProvider) (p : AdProvider) (post : List AdProvider),
      l.filter (isCandidate adapters) = pre ++ p :: post →
      (∀ q ∈ pre, loadFills adapters slotId q = false) →
      loadFills adapters slotId p = true →
      waterfall adapters slotId false l =
        ⟨pre ++ [p], some p,
         if p = AdProvider.adsense then true else false⟩ := by
  intro l
  induction l with
  | nil =>
      intro pre p post hfil _ _
      exact absurd hfil (by cases pre <;> simp)
  | cons q rest ih =>
      intro pre p post hfil hpre hp
      by_cases hc : isCandidate adapters q = true
      · have hA : ∃ a, adapters q = some a ∧ a.available = true := by
          unfold isCandidate at hc
          cases hA : adapters q with
          | none => rw [hA] at hc; exact absurd hc (by simp)
          | some a => rw [hA] at hc; exact ⟨a, rfl, hc⟩
        obtain ⟨a, hA, hav⟩ := hA
        rw [List.filter_cons_of_pos hc] at hfil
        cases pre with
        | nil =>
            simp only [List.nil_append] at hfil
            obtain ⟨hq, hpost⟩ := List.cons_eq_cons.mp hfil
            subst hq
            have hL : a.load slotId = LoadOutcome.fills := by
              unfold loadFills at hp; rw [hA] at hp; simpa using hp
            unfold waterfall
            rw [hA]
            simp [hav, hL]
        | cons q' pre' =>
            simp only [List.cons_append] at hfil
            obtain ⟨hq, hrest'⟩ := List.cons_eq_cons.mp hfil
            subst hq
            have hf : loadFills adapters slotId q = false :=
              hpre q (List.mem_cons_self q pre')
            have hL : a.load slotId ≠ LoadOutcome.fills := by
              unfold loadFills at hf; rw [hA] at hf; simpa using hf
            have hr := ih pre' p post hrest'
              (fun x hx => hpre x (List.mem_cons_of_mem q hx)) hp
            unfold waterfall
            rw [hA]
            cases hLoad : a.load slotId with
            | fills => exact absurd hLoad hL
            | noFill => simp [hav, hLoad, hr]
            | fault => simp [hav, hLoad, hr]
      · rw [waterfall_skip adapters slotId false q rest (by simpa using hc)]
        rw [List.filter_cons_of_neg (by simpa using hc)] at hfil
        exact ih pre p post hfil hpre hp

/-- On an accepted slot, `triggerLoad`'s attempt list and final slot
state are determined by the provider-loop result. -/
theorem triggerLoad_parts (σ : OrchState) (slotId : AdSlotId) (slot : AdSlotConfig)
    (hnew : σ.loadedSlots.contains slotId = false)
    (hdev : isSlotEnabledForDevice σ slotId = true)
    (hquota : canLoadMobileSlot σ = true)
    (hslot : getSlotConfig σ slotId = some slot) :
    (triggerLoad σ slotId).2 =
      (waterfall σ.adapters slotId σ.adsenseActive
        (getAvailableProviders σ slot.providers)).attempts ∧
    getSlotState (triggerLoad σ slotId).1 slotId =
      (match (waterfall σ.adapters slotId σ.adsenseActive
          (getAvailableProviders σ slot.providers)).winner with
       | some p =>
           some { loaded := true, filled := true,
                  currentProvider := some p, error := none }
       | none =>
           some { loaded := true, filled := false, currentProvider := none,
                  error := some "All providers failed to fill" }) := by
  unfold triggerLoad
  simp only [hnew, hdev, hquota, hslot]
  cases hw : (waterfall σ.adapters slotId σ.adsenseActive
      (getAvailableProviders σ slot.providers)).winner with
  | some p => simp [hw, getSlotState, setSlotState]
  | none => simp [hw, getSlotState, setSlotState]

/-- C7 (amended): within one `triggerLoad` on an accepted slot, and
provided the global AdSense-active flag is not set at call time (when
it is set, non-AdSense candidates are skipped without being attempted
— see the counterexample), the candidates (configured-enabled
providers with a registered, available adapter) are attempted in the
slot's configured order: if candidate `p` after prefix `pre` is the
first to fill, exactly `pre ++ [p]` are attempted (no provider twice,
given a duplicate-free configured list) and the slot ends
`{loaded, filled, currentProvider := p, error := null}`; if no
candidate fills, all candidates are attempted once and the slot ends
`{loaded, not filled, error := "All providers failed to fill"}`. -/
theorem waterfall_ordering (σ : OrchState) (slotId : AdSlotId)
    (slot : AdSlotConfig)
    (hnew : σ.loadedSlots.contains slotId = false)
    (hdev : isSlotEnabledForDevice σ slotId = true)
    (hquota : canLoadMobileSlot σ = true)
    (hslot : getSlotConfig σ slotId = some slot)
    (hactive : σ.adsenseActive = false)
    (hnodup : slot.providers.Nodup) :
    (∀ pre p post,
        realCandidates σ slot = pre ++ p :: post →
        (∀ q ∈ pre, loadFills σ.adapters slotId q = false) →
        loadFills σ.adapters slotId p = true →
        (triggerLoad σ slotId).2 = pre ++ [p] ∧
        (triggerLoad σ slotId).2.Nodup ∧
        getSlotState (triggerLoad σ slotId).1 slotId =
          some { loaded := true, filled := true,
                 currentProvider := some p, error := none }) ∧
    ((∀ q ∈ realCandidates σ slot, loadFills σ.adapters slotId q = false) →
        (triggerLoad σ slotId).2 = realCandidates σ slot ∧
        getSlotState (triggerLoad σ slotId).1 slotId =
          some { loaded := true, filled := false, currentProvider := none,
                 error := some "All providers failed to fill" }) := by
  obtain ⟨hatt, hstate⟩ := triggerLoad_parts σ slotId slot hnew hdev hquota hslot
  rw [hactive] at hatt hstate
  constructor
  · intro pre p post hfil hpre hp
    have hfil' : (getAvailableProviders σ slot.providers).filter
        (isCandidate σ.adapters) = pre ++ p :: post := hfil
    have hw := waterfall_first_fill σ.adapters slotId
      (getAvailableProviders σ slot.providers) pre p post hfil' hpre hp
    refine ⟨?_, ?_, ?_⟩
    · rw [hatt, hw]
    · rw [hatt, hw]
      have hnd : (realCandidates σ slot).Nodup := (hnodup.filter _).filter _
      rw [hfil] at hnd
      have hnd' : ((pre ++ [p]) ++ post).Nodup := by
        rw [List.append_assoc, List.singleton_append]; exact hnd
      exact hnd'.of_append_left
    · rw [hw] at hstate
      simpa using hstate
  · intro hall
    have hw := waterfall_exhausts σ.adapters slotId
      (getAvailableProviders σ slot.providers)
      (fun q hq hcq => hall q (List.mem_filter.mpr ⟨hq, hcq⟩) )
    refine ⟨?_, ?_⟩
    · rw [hatt, hw]; rfl
    · rw [hw] at hstate
      simpa using hstate

/-- The top-leaderboard slot configuration (first entry of
`DEFAULT_AD_CONFIG`). -/
def sampleSlot : AdSlotConfig :=
  { id := AdSlotId.AD_TOP_LEADERBOARD
    sizesDesktop := [(728, 90), (970, 90)]
    sizesMobile := [(320, 100), (320, 50)]
    providers := [AdProvider.adsense, AdProvider.adsterra, AdProvider.monetag]
    enabledDevices := [Device.desktop, Device.mobile]
    enabledPages := [PageKind.app, PageKind.landing]
    lazy := true
    sticky := false }

/-- A fresh desktop orchestrator over `sampleSlot`, all providers
configured-enabled; AdSense declines to fill, Adsterra fills, Monetag
has no registered adapter. -/
def sampleOrch : OrchState :=
  { config :=
      { enabled := true
        slots := [sampleSlot]
        providerEnabled := fun _ => true
        mobileSlotLimit := 3 }
    slotStates := fun i =>
      if i = AdSlotId.AD_TOP_LEADERBOARD then
        some { loaded := false, filled := false,
               currentProvider := none, error := none }
      else none
    adapters := fun p =>
      match p with
      | AdProvider.adsense =>
          some { available := true, load := fun _ => LoadOutcome.noFill }
      | AdProvider.adsterra =>
          some { available := true, load := fun _ => LoadOutcome.fills }
      | AdProvider.monetag => none
    adsenseActive := false
    loadedSlots := []
    mobileSlotCount := 0
    mobile := false }

/-- C7 witness: on the fresh orchestrator the candidates are
`[adsense, adsterra]`; AdSense is attempted and declines, Adsterra is
attempted and fills, and the slot ends filled by Adsterra. -/
theorem waterfall_ordering_witness :
    (triggerLoad sampleOrch AdSlotId.AD_TOP_LEADERBOARD).2 =
      [AdProvider.adsense, AdProvider.adsterra] ∧
    (triggerLoad sampleOrch AdSlotId.AD_TOP_LEADERBOARD).2.Nodup ∧
    getSlotState (triggerLoad sampleOrch AdSlotId.AD_TOP_LEADERBOARD).1
        AdSlotId.AD_TOP_LEADERBOARD =
      some { loaded := true, filled := true,
             currentProvider := some AdProvider.adsterra, error := none } :=
  (waterfall_ordering sampleOrch AdSlotId.AD_TOP_LEADERBOARD sampleSlot
      (by decide) (by decide) (by decide) (by decide) rfl (by decide)).1
    [AdProvider.adsense] AdProvider.adsterra [] (by decide) (by decide) (by decide)

/-- An orchestrator whose AdSense-active flag is already set, over a
slot configured `[adsterra, adsense]` where both adapters are
registered, available, and would fill. -/
def activeFlagOrch : OrchState :=
  { config :=
      { enabled := true
        slots := [{ sampleSlot with
                      providers := [AdProvider.adsterra, AdProvider.adsense] }]
        providerEnabled := fun _ => true
        mobileSlotLimit := 3 }
    slotStates := fun i =>
      if i = AdSlotId.AD_TOP_LEADERBOARD then
        some { loaded := false, filled := false,
               currentProvider := none, error := none }
      else none
    adapters := fun _ =>
      some { available := true, load := fun _ => LoadOutcome.fills }
    adsenseActive := true
    loadedSlots := []
    mobileSlotCount := 0
    mobile := false }

/-- C7 counterexample: with the AdSense-active flag set, the candidate
list is `[adsterra, adsense]` and Adsterra's `load()` would fill, yet
only AdSense is attempted — the attempted list is neither
`candidates 0..0` nor `candidates 0..1`, so the claim's "exactly
candidates `0..k` are attempted" fails as stated. -/
theorem waterfall_ordering_cex :
    activeFlagOrch.adsenseActive = true ∧
    realCandidates activeFlagOrch
        { sampleSlot with providers := [AdProvider.adsterra, AdProvider.adsense] }
      = [AdProvider.adsterra, AdProvider.adsense] ∧
    loadFills activeFlagOrch.adapters AdSlotId.AD_TOP_LEADERBOARD
        AdProvider.adsterra = true ∧
    (triggerLoad activeFlagOrch AdSlotId.AD_TOP_LEADERBOARD).2 =
      [AdProvider.adsense] ∧
    (triggerLoad activeFlagOrch AdSlotId.AD_TOP_LEADERBOARD).2 ≠
      [AdProvider.adsterra] ∧
    (triggerLoad activeFlagOrch AdSlotId.AD_TOP_LEADERBOARD).2 ≠
      [AdProvider.adsterra, AdProvider.adsense] := by
  decide

/-- With the AdSense-active flag set, the provider loop only ever
attempts AdSense, and the flag stays set. -/
theorem waterfall_active_adsense (adapters : AdProvider → Option AdapterModel)
    (slotId : AdSlotId) :
    ∀ l : List AdProvider,
      (waterfall adapters slotId true l).adsenseActive = true ∧
      ∀ p ∈ (waterfall adapters slotId true l).attempts,
        p = AdProvider.adsense := by
  intro l
  induction l with
  | nil => exact ⟨rfl, by simp [waterfall]⟩
  | cons p rest ih =>
      by_cases hc : isCandidate adapters p = true
      · have hA : ∃ a, adapters p = some a ∧ a.available = true := by
          unfold isCandidate at hc
          cases hA : adapters p with
          | none => rw [hA] at hc; exact absurd hc (by simp)
          | some a => rw [hA] at hc; exact ⟨a, rfl, hc⟩
        obtain ⟨a, hA, hav⟩ := hA
        by_cases hp : p = AdProvider.adsense
        · subst hp
          unfold waterfall
          rw [hA]
          cases hLoad : a.load slotId with
          | fills => simp [hav, hLoad]
          | noFill =>
              simp only [hav, hLoad]
              refine ⟨by simpa using ih.1, ?_⟩
              intro q hq
              simp at hq
              rcases hq with hq | hq
              · exact hq
              · exact ih.2 q hq
          | fault =>
              simp only [hav, hLoad]
              refine ⟨by simpa using ih.1, ?_⟩
              intro q hq
              simp at hq
              rcases hq with hq | hq
              · exact hq
              · exact ih.2 q hq
        · have hor : p = AdProvider.adsterra ∨ p = AdProvider.monetag := by
            cases p <;> simp_all
          unfold waterfall
          rw [hA]
          simp only [hav, hor]
          simpa using ih
      · rw [waterfall_skip adapters slotId true p rest (by simpa using hc)]
        exact ih

/-- With the AdSense-active flag set, one `triggerLoad` invokes no
non-AdSense `load()` and keeps the flag set. -/
theorem triggerLoad_active (σ : OrchState) (slotId : AdSlotId)
    (h : σ.adsenseActive = true) :
    (triggerLoad σ slotId).1.adsenseActive = true ∧
    ∀ p ∈ (triggerLoad σ slotId).2, p = AdProvider.adsense := by
  unfold triggerLoad
  by_cases h1 : slotId ∈ σ.loadedSlots
  · simp [h1, h]
  · by_cases h2 : isSlotEnabledForDevice σ slotId = true
    · by_cases h3 : canLoadMobileSlot σ = true
      · cases hc : getSlotConfig σ slotId with
        | none => simp [h1, h2, h3, hc, h]
        | some slot =>
            rw [h]
            have hw := waterfall_active_adsense σ.adapters slotId
              (getAvailableProviders σ slot.providers)
            cases hwin : (waterfall σ.adapters slotId true
                (getAvailableProviders σ slot.providers)).winner with
            | some p =>
                constructor
                · simp only [h1, h2, h3, hc, hwin]
                  simp [h1]
                  exact hw.1
                · intro q hq
                  simp only [h1, h2, h3, hc, hwin] at hq
                  simp [h1] at hq
                  exact hw.2 q hq
            | none =>
                constructor
                · simp only [h1, h2, h3, hc, hwin]
                  simp [h1]
                · intro q hq
                  simp only [h1, h2, h3, hc, hwin] at hq
                  simp [h1] at hq
                  exact hw.2 q hq
      · simp [h1, h2, h3, h]
    · simp [h1, h2, h]

/-- Every orchestrator operation preserves a set AdSense-active flag
and, while it is set, logs only AdSense `load()` invocations. -/
theorem applyAdOp_active (σ : OrchState) (op : AdOp)
    (h : σ.adsenseActive = true) :
    (applyAdOp σ op).1.adsenseActive = true ∧
    ∀ e ∈ (applyAdOp σ op).2, e.2 = AdProvider.adsense := by
  cases op with
  | opTrigger slotId =>
      have ht := triggerLoad_active σ slotId h
      simp only [applyAdOp]
      refine ⟨ht.1, ?_⟩
      intro e he
      simp only [List.mem_map] at he
      obtain ⟨p, hp, rfl⟩ := he
      exact ht.2 p hp
  | opUnregister slotId => exact ⟨h, by simp [applyAdOp]⟩
  | opDestroy => exact ⟨h, by simp [applyAdOp]⟩
  | opRegisterAdapter p a => exact ⟨h, by simp [applyAdOp]⟩

/-- C8: once the AdSense-active flag is set (i.e. some `triggerLoad`
has filled a slot via AdSense), then over every subsequent sequence of
orchestrator operations — further `triggerLoad`s on any slot,
`unregisterSlot`, `destroy`, adapter registrations — no non-AdSense
provider's `load()` is ever invoked, and the flag never clears
(`unregisterSlot` and `destroy` do not reset it). -/
theorem adsense_exclusivity (σ : OrchState) (ops : List AdOp)
    (h : σ.adsenseActive = true) :
    (∀ e ∈ (runAdOps σ ops).2, e.2 = AdProvider.adsense) ∧
    (runAdOps σ ops).1.adsenseActive = true := by
  induction ops generalizing σ with
  | nil => exact ⟨by simp [runAdOps], h⟩
  | cons op rest ih =>
      have h1 := applyAdOp_active σ op h
      have h2 := ih (applyAdOp σ op).1 h1.1
      unfold runAdOps
      constructor
      · intro e he
        simp only [List.mem_append] at he
        rcases he with he | he
        · exact h1.2 e he
        · exact h2.1 e he
      · exact h2.2

/-- An orchestrator over `sampleSlot` in which AdSense has already
filled a slot (flag set); Adsterra and Monetag would fill if asked. -/
def adsenseWonOrch : OrchState :=
  { config :=
      { enabled := true
        slots := [sampleSlot]
        providerEnabled := fun _ => true
        mobileSlotLimit := 3 }
    slotStates := fun i =>
      if i = AdSlotId.AD_TOP_LEADERBOARD then
        some { loaded := false, filled := false,
               currentProvider := none, error := none }
      else none
    adapters := fun _ =>
      some { available := true, load := fun _ => LoadOutcome.fills }
    adsenseActive := true
    loadedSlots := []
    mobileSlotCount := 0
    mobile := false }

/-- C8 witness: after a destroy and a further `triggerLoad` on the
flag-set orchestrator the flag is still set, and the whole run logged
only AdSense invocations. -/
theorem adsense_exclusivity_witness :
    (runAdOps adsenseWonOrch
        [AdOp.opDestroy,
         AdOp.opTrigger AdSlotId.AD_TOP_LEADERBOARD,
         AdOp.opUnregister AdSlotId.AD_TOP_LEADERBOARD]).1.adsenseActive
      = true :=
  (adsense_exclusivity adsenseWonOrch
    [AdOp.opDestroy,
     AdOp.opTrigger AdSlotId.AD_TOP_LEADERBOARD,
     AdOp.opUnregister AdSlotId.AD_TOP_LEADERBOARD] rfl).2

end Haisa
